import Mathlib

/-
Verification of `src/assets/hooks/prompt-lint.py`.

The program reads stdin, attempts `json.loads`, extracts `obj.get("prompt","")`
inside the same `try`/`except Exception` block, and then evaluates
`len(prompt) > 0 and "acceptance" not in prompt.lower()` OUTSIDE the guarded
region.  A blocked verdict writes a fixed reminder (with trailing newline) to
stderr and exits 2; otherwise a fixed guidance string (no trailing newline)
goes to stdout and the program exits 0.

Embedding choices:
* the decoded JSON value is an inductive `Json`; the outcome of `json.loads`
  on the raw input bytes is modelled as `Except Unit Json`, where
  `Except.error ()` stands for any decoding exception;
* Python dynamic typing at `len(prompt)` and `prompt.lower()` is modelled by
  `pyLen` and `pyLower`, which return `Except.error ()` exactly where CPython
  raises `TypeError` (`len` on values without a length) or `AttributeError`
  (`.lower()` on a non-string).  Those calls sit outside the `try` block, so
  an error there aborts the program without reaching either verdict branch;
* `str.lower` is modelled per character by `Char.toLower`, and the Python
  substring test `needle in hay` by `occursIn` on the character lists.
-/

/-- Decoded JSON values, as produced by the `json.loads` decoder. -/
inductive Json where
  | null
  | bool (b : Bool)
  | num (n : Int)
  | str (s : String)
  | arr (elems : List Json)
  | obj (fields : List (String × Json))

/-- Field lookup in a decoded JSON object.  `json.loads` builds a Python
dict, where a later duplicate key overrides an earlier one, so the lookup
takes the LAST binding of the key. -/
def getField (fields : List (String × Json)) (key : String) : Option Json :=
  match fields with
  | [] => none
  | (k, v) :: rest =>
    match getField rest key with
    | some w => some w
    | none => if k == key then some v else none

/-- The `try` block of lines 4-8: `obj = json.loads(data)` followed by
`prompt = obj.get("prompt","")`, with `except Exception: prompt = ""`.
A decoding failure, a non-dict top-level value (whose `.get` raises
`AttributeError`, caught by the same handler) and a missing `prompt` key
all yield the empty string; otherwise the stored value is returned as is,
of whatever JSON type it has. -/
def extractPrompt : Except Unit Json → Json
  | Except.error _ => Json.str ""
  | Except.ok j =>
    match j with
    | Json.obj fields => (getField fields "prompt").getD (Json.str "")
    | _ => Json.str ""

/-- Python `len(x)`: defined for strings (code points), lists and dicts;
raises `TypeError` on `None`, booleans and numbers. -/
def pyLen : Json → Except Unit Nat
  | Json.str s => Except.ok s.length
  | Json.arr elems => Except.ok elems.length
  | Json.obj fields => Except.ok fields.length
  | _ => Except.error ()

/-- The character sequence of `s.lower()`. -/
def lowered (s : String) : List Char := s.toList.map Char.toLower

/-- Python `x.lower()`: defined on strings only; raises `AttributeError`
otherwise.  The result is viewed as its character sequence. -/
def pyLower : Json → Except Unit (List Char)
  | Json.str s => Except.ok (lowered s)
  | _ => Except.error ()

/-- Does `needle` occur at the head of `hay`? -/
def matchesAt : List Char → List Char → Bool
  | [], _ => true
  | _ :: _, [] => false
  | a :: as, b :: bs => a == b && matchesAt as bs

/-- Python substring test `needle in hay` on character sequences. -/
def occursIn (needle : List Char) : List Char → Bool
  | [] => needle.isEmpty
  | b :: bs => matchesAt needle (b :: bs) || occursIn needle bs

/-- The marker substring of line 10. -/
def marker : String := "acceptance"

/-- The two verdicts of the checker. -/
inductive Verdict where
  | blocked
  | allowed

/-- Line 10, `len(prompt) > 0 and "acceptance" not in prompt.lower()`,
with Python short-circuit evaluation: `prompt.lower()` is reached only
when the length is positive, and each primitive can abort the program
with an uncaught exception. -/
def decideVerdict (prompt : Json) : Except Unit Verdict :=
  match pyLen prompt with
  | Except.error _ => Except.error ()
  | Except.ok n =>
    if n > 0 then
      match pyLower prompt with
      | Except.error _ => Except.error ()
      | Except.ok low =>
        if occursIn marker.toList low then Except.ok Verdict.allowed
        else Except.ok Verdict.blocked
    else Except.ok Verdict.allowed

/-- The text written to stdout by line 14 (no trailing newline). -/
def guidanceText : String :=
  "Consider: objective, constraints, acceptance criteria, and test plan."

/-- The text written to stderr by line 11 (with trailing newline). -/
def reminderText : String :=
  "Please include acceptance criteria in your prompt (exit=2 to block).\n"

/-- The observable result of a normally terminating invocation. -/
structure Effect where
  exitCode : Nat
  stdout : String
  stderr : String
deriving DecidableEq

/-- Lines 11-12: stderr reminder, exit status 2. -/
def blockedEffect : Effect := ⟨2, "", reminderText⟩

/-- Lines 14-15: stdout guidance, exit status 0. -/
def allowedEffect : Effect := ⟨0, guidanceText, ""⟩

/-- The effect emitted for each verdict. -/
def effectOf : Verdict → Effect
  | Verdict.blocked => blockedEffect
  | Verdict.allowed => allowedEffect

/-- The whole program, from the outcome of `json.loads` on the input bytes
to the observable result; `Except.error ()` on the right stands for an
uncaught exception (the interpreter then prints a traceback and exits
with a status that is neither 0 nor 2). -/
def run (input : Except Unit Json) : Except Unit Effect :=
  (decideVerdict (extractPrompt input)).map effectOf

/-- Big-step behaviour of the checker as a relation, following the control
flow of lines 10-15 branch by branch. -/
inductive Step : Except Unit Json → Except Unit Effect → Prop where
  | lenCrash (i : Except Unit Json) :
      pyLen (extractPrompt i) = Except.error () → Step i (Except.error ())
  | emptyAllow (i : Except Unit Json) :
      pyLen (extractPrompt i) = Except.ok 0 → Step i (Except.ok allowedEffect)
  | lowerCrash (i : Except Unit Json) (n : Nat) :
      pyLen (extractPrompt i) = Except.ok (n + 1) →
      pyLower (extractPrompt i) = Except.error () → Step i (Except.error ())
  | blockStep (i : Except Unit Json) (n : Nat) (low : List Char) :
      pyLen (extractPrompt i) = Except.ok (n + 1) →
      pyLower (extractPrompt i) = Except.ok low →
      occursIn marker.toList low = false → Step i (Except.ok blockedEffect)
  | markedAllow (i : Except Unit Json) (n : Nat) (low : List Char) :
      pyLen (extractPrompt i) = Except.ok (n + 1) →
      pyLower (extractPrompt i) = Except.ok low →
      occursIn marker.toList low = true → Step i (Except.ok allowedEffect)

/-- Helper: the verdict computation on a string prompt, with the dynamic
checks resolved. -/
theorem decideVerdict_str (s : String) :
    decideVerdict (Json.str s) =
      if 0 < s.length then
        if occursIn marker.toList (lowered s) then Except.ok Verdict.allowed
        else Except.ok Verdict.blocked
      else Except.ok Verdict.allowed := rfl

/-- Helper: a string prompt of positive length whose lowered form lacks the
marker drives the program into the blocked branch. -/
theorem run_str_blocked (i : Except Unit Json) (s : String)
    (h : extractPrompt i = Json.str s) (hl : 0 < s.length)
    (hm : occursIn marker.toList (lowered s) = false) :
    run i = Except.ok blockedEffect := by
  have hd : decideVerdict (extractPrompt i) = Except.ok Verdict.blocked := by
    rw [h, decideVerdict_str, if_pos hl, hm]
    rfl
  show (decideVerdict (extractPrompt i)).map effectOf = Except.ok blockedEffect
  rw [hd]
  rfl

/-- Helper: an empty string prompt, or one whose lowered form carries the
marker, drives the program into the allowed branch. -/
theorem run_str_allowed (i : Except Unit Json) (s : String)
    (h : extractPrompt i = Json.str s)
    (hd : s.length = 0 ∨ occursIn marker.toList (lowered s) = true) :
    run i = Except.ok allowedEffect := by
  have hv : decideVerdict (extractPrompt i) = Except.ok Verdict.allowed := by
    rw [h, decideVerdict_str]
    rcases hd with hz | hm
    · rw [if_neg (by rw [hz]; exact Nat.lt_irrefl 0)]
    · by_cases hl : 0 < s.length
      · rw [if_pos hl, hm]
        rfl
      · rw [if_neg hl]
  show (decideVerdict (extractPrompt i)).map effectOf = Except.ok allowedEffect
  rw [hv]
  rfl

/-- C1: for every string prompt extracted from the input, the verdict is
Blocked (exit 2, reminder on stderr) exactly when the prompt is non-empty
and its lowered form lacks the substring "acceptance"; in every other case
the verdict is Allowed (exit 0, guidance on stdout). -/
theorem prompt_string_verdict (i : Except Unit Json) (s : String)
    (h : extractPrompt i = Json.str s) :
    (run i = Except.ok blockedEffect ↔
      0 < s.length ∧ occursIn marker.toList (lowered s) = false) ∧
    (run i = Except.ok blockedEffect ∨ run i = Except.ok allowedEffect) := by
  have hne : allowedEffect ≠ blockedEffect := by decide
  by_cases hl : 0 < s.length
  · cases hb : occursIn marker.toList (lowered s) with
    | false =>
      have hr := run_str_blocked i s h hl hb
      exact ⟨⟨fun _ => ⟨hl, rfl⟩, fun _ => hr⟩, Or.inl hr⟩
    | true =>
      have hr := run_str_allowed i s h (Or.inr hb)
      refine ⟨⟨fun hblk => ?_, fun hc => Bool.noConfusion hc.2⟩, Or.inr hr⟩
      rw [hr] at hblk
      exact absurd (Except.ok.inj hblk) hne
  · have hz : s.length = 0 := Nat.eq_zero_of_not_pos hl
    have hr := run_str_allowed i s h (Or.inl hz)
    refine ⟨⟨fun hblk => ?_, fun hc => absurd hc.1 hl⟩, Or.inr hr⟩
    rw [hr] at hblk
    exact absurd (Except.ok.inj hblk) hne

/-- Witness for C1 at the concrete input with prompt "ship it". -/
theorem prompt_string_verdict_witness :
    (run (Except.ok (Json.obj [("prompt", Json.str "ship it")])) =
        Except.ok blockedEffect ↔
      0 < ("ship it" : String).length ∧
      occursIn marker.toList (lowered "ship it") = false) ∧
    (run (Except.ok (Json.obj [("prompt", Json.str "ship it")])) =
        Except.ok blockedEffect ∨
     run (Except.ok (Json.obj [("prompt", Json.str "ship it")])) =
        Except.ok allowedEffect) :=
  prompt_string_verdict (Except.ok (Json.obj [("prompt", Json.str "ship it")]))
    "ship it" rfl

/-- C2 counterexample: on the input object mapping "prompt" to JSON null,
`len(prompt)` raises an uncaught TypeError, so the program terminates with
neither the allowed effect (exit 0) nor the blocked effect (exit 2). -/
theorem run_crash_on_null_prompt :
    run (Except.ok (Json.obj [("prompt", Json.null)])) = Except.error () ∧
    (Except.error () : Except Unit Effect) ≠ Except.ok allowedEffect ∧
    (Except.error () : Except Unit Effect) ≠ Except.ok blockedEffect :=
  ⟨rfl, fun h => Except.noConfusion h, fun h => Except.noConfusion h⟩

/-- C2 (amended): for every input whose extracted prompt is a string - which
covers parse failures, non-object payloads and missing keys - the program
terminates with exit status 0 or exit status 2. -/
theorem exit_codes_for_string_prompts (i : Except Unit Json) (s : String)
    (h : extractPrompt i = Json.str s) :
    run i = Except.ok allowedEffect ∨ run i = Except.ok blockedEffect := by
  by_cases hl : 0 < s.length
  · cases hb : occursIn marker.toList (lowered s) with
    | false => exact Or.inr (run_str_blocked i s h hl hb)
    | true => exact Or.inl (run_str_allowed i s h (Or.inr hb))
  · exact Or.inl (run_str_allowed i s h (Or.inl (Nat.eq_zero_of_not_pos hl)))

/-- Witness for the amended C2 at the parse-failure input. -/
theorem exit_codes_for_string_prompts_witness :
    run (Except.error ()) = Except.ok allowedEffect ∨
    run (Except.error ()) = Except.ok blockedEffect :=
  exit_codes_for_string_prompts (Except.error ()) "" rfl

/-- C3: an input that fails to decode as JSON is Allowed - exit 0 with the
guidance string on stdout - identically to an input whose prompt is the
empty string; the decoding failure is never surfaced. -/
theorem parse_failure_allowed :
    run (Except.error ()) = Except.ok allowedEffect ∧
    run (Except.error ()) = run (Except.ok (Json.obj [("prompt", Json.str "")])) ∧
    allowedEffect.exitCode = 0 ∧ allowedEffect.stdout = guidanceText ∧
    allowedEffect.stderr = "" :=
  ⟨rfl, rfl, rfl, rfl, rfl⟩

/-- C4: a non-object top-level value, or an object without a "prompt" key,
yields the empty string as effective prompt and the Allowed verdict. -/
theorem non_object_or_missing_key_allowed (j : Json)
    (h : (∀ fields, j ≠ Json.obj fields) ∨
      ∃ fields, j = Json.obj fields ∧ getField fields "prompt" = none) :
    extractPrompt (Except.ok j) = Json.str "" ∧
    run (Except.ok j) = Except.ok allowedEffect := by
  have hx : extractPrompt (Except.ok j) = Json.str "" := by
    rcases h with h | ⟨fields, rfl, hf⟩
    · cases j with
      | obj fields => exact absurd rfl (h fields)
      | null => rfl
      | bool b => rfl
      | num n => rfl
      | str s => rfl
      | arr elems => rfl
    · simp [extractPrompt, hf]
  refine ⟨hx, ?_⟩
  have hrun : run (Except.ok j) =
      (decideVerdict (extractPrompt (Except.ok j))).map effectOf := rfl
  rw [hrun, hx]
  rfl

/-- Witness for C4 at the non-object input 5. -/
theorem non_object_or_missing_key_allowed_witness :
    extractPrompt (Except.ok (Json.num 5)) = Json.str "" ∧
    run (Except.ok (Json.num 5)) = Except.ok allowedEffect :=
  non_object_or_missing_key_allowed (Json.num 5)
    (Or.inl fun _ h => Json.noConfusion h)

/-- C5 counterexample: on the input object mapping "prompt" to the empty
array, the extracted prompt is a non-string value, yet `len` succeeds with
0, no exception is raised and the program exits 0 with the guidance text. -/
theorem empty_array_prompt_allowed :
    extractPrompt (Except.ok (Json.obj [("prompt", Json.arr [])])) = Json.arr [] ∧
    run (Except.ok (Json.obj [("prompt", Json.arr [])])) = Except.ok allowedEffect :=
  ⟨rfl, rfl⟩

/-- C5 (amended): for a JSON object input whose "prompt" key maps to a
non-string value OTHER than an empty array or empty object, extraction
yields that value unchanged and the length/lowercase check raises an
uncaught exception, so the program exits with neither 0 nor 2. -/
theorem non_string_prompt_crashes (fields : List (String × Json)) (v : Json)
    (hv : getField fields "prompt" = some v)
    (hs : ∀ s, v ≠ Json.str s)
    (ha : v ≠ Json.arr []) (ho : v ≠ Json.obj []) :
    extractPrompt (Except.ok (Json.obj fields)) = v ∧
    run (Except.ok (Json.obj fields)) = Except.error () := by
  have hx : extractPrompt (Except.ok (Json.obj fields)) = v := by
    simp [extractPrompt, hv]
  refine ⟨hx, ?_⟩
  have hrun : run (Except.ok (Json.obj fields)) =
      (decideVerdict (extractPrompt (Except.ok (Json.obj fields)))).map effectOf := rfl
  rw [hrun, hx]
  cases v with
  | null => rfl
  | bool b => rfl
  | num n => rfl
  | str s => exact absurd rfl (hs s)
  | arr elems =>
    cases elems with
    | nil => exact absurd rfl ha
    | cons e es => simp [decideVerdict, pyLen, pyLower, Except.map, Nat.succ_pos]
  | obj fs =>
    cases fs with
    | nil => exact absurd rfl ho
    | cons f fs => simp [decideVerdict, pyLen, pyLower, Except.map, Nat.succ_pos]

/-- Witness for the amended C5 at the input with a null prompt. -/
theorem non_string_prompt_crashes_witness :
    extractPrompt (Except.ok (Json.obj [("prompt", Json.null)])) = Json.null ∧
    run (Except.ok (Json.obj [("prompt", Json.null)])) = Except.error () :=
  non_string_prompt_crashes [("prompt", Json.null)] Json.null rfl
    (fun _ h => Json.noConfusion h) (fun h => Json.noConfusion h)
    (fun h => Json.noConfusion h)

/-- C6: whenever the verdict is Blocked, the program writes exactly the
fixed reminder string followed by a newline to stderr, nothing to stdout,
and terminates with exit status 2. -/
theorem blocked_effect_contract (i : Except Unit Json)
    (h : decideVerdict (extractPrompt i) = Except.ok Verdict.blocked) :
    run i = Except.ok ⟨2, "",
      "Please include acceptance criteria in your prompt (exit=2 to block).\n"⟩ := by
  show (decideVerdict (extractPrompt i)).map effectOf = _
  rw [h]
  rfl

/-- Witness for C6 at a concrete blocking input. -/
theorem blocked_effect_contract_witness :
    run (Except.ok (Json.obj [("prompt", Json.str "do the thing")])) =
      Except.ok ⟨2, "",
        "Please include acceptance criteria in your prompt (exit=2 to block).\n"⟩ :=
  blocked_effect_contract (Except.ok (Json.obj [("prompt", Json.str "do the thing")]))
    rfl

/-- C7: whenever the verdict is Allowed, the program writes exactly the
fixed guidance string (no trailing newline) to stdout, nothing to stderr,
and terminates with exit status 0. -/
theorem allowed_effect_contract (i : Except Unit Json)
    (h : decideVerdict (extractPrompt i) = Except.ok Verdict.allowed) :
    run i = Except.ok ⟨0,
      "Consider: objective, constraints, acceptance criteria, and test plan.",
      ""⟩ := by
  show (decideVerdict (extractPrompt i)).map effectOf = _
  rw [h]
  rfl

/-- Witness for C7 at the parse-failure input. -/
theorem allowed_effect_contract_witness :
    run (Except.error ()) =
      Except.ok ⟨0,
        "Consider: objective, constraints, acceptance criteria, and test plan.",
        ""⟩ :=
  allowed_effect_contract (Except.error ()) rfl

/-- C8 counterexample: the invocation with a numeric prompt raises an
uncaught exception and produces neither of the two contracted effects. -/
theorem crash_neither_effect :
    run (Except.ok (Json.obj [("prompt", Json.num 5)])) = Except.error () ∧
    (Except.error () : Except Unit Effect) ≠ Except.ok allowedEffect ∧
    (Except.error () : Except Unit Effect) ≠ Except.ok blockedEffect :=
  ⟨rfl, fun h => Except.noConfusion h, fun h => Except.noConfusion h⟩

/-- C8 (amended): every invocation that terminates normally produces exactly
one of the two effects - the allowed effect with an empty stderr, or the
blocked effect with an empty stdout - so no invocation writes both
messages. -/
theorem effects_exclusive (i : Except Unit Json) (e : Effect)
    (h : run i = Except.ok e) :
    (e = allowedEffect ∧ e.stderr = "") ∨ (e = blockedEffect ∧ e.stdout = "") := by
  cases hd : decideVerdict (extractPrompt i) with
  | error u =>
    have hr : run i = Except.error u := by
      show (decideVerdict (extractPrompt i)).map effectOf = _
      rw [hd]
      rfl
    rw [hr] at h
    exact Except.noConfusion h
  | ok v =>
    have hr : run i = Except.ok (effectOf v) := by
      show (decideVerdict (extractPrompt i)).map effectOf = _
      rw [hd]
      rfl
    rw [hr] at h
    have he : e = effectOf v := (Except.ok.inj h).symm
    cases v with
    | allowed => exact Or.inl ⟨he, by rw [he]; rfl⟩
    | blocked => exact Or.inr ⟨he, by rw [he]; rfl⟩

/-- Witness for the amended C8 at the parse-failure input. -/
theorem effects_exclusive_witness :
    (allowedEffect = allowedEffect ∧ allowedEffect.stderr = "") ∨
    (allowedEffect = blockedEffect ∧ allowedEffect.stdout = "") :=
  effects_exclusive (Except.error ()) allowedEffect rfl

/-- C9: two object inputs whose prompt field holds the same string value
(where an absent key counts as the empty string) produce identical
results whatever their other fields are, and an empty or absent prompt
field always yields the Allowed outcome. -/
theorem same_prompt_same_outcome (fs₁ fs₂ : List (String × Json)) (s : String)
    (h₁ : getField fs₁ "prompt" = some (Json.str s) ∨
      (s = "" ∧ getField fs₁ "prompt" = none))
    (h₂ : getField fs₂ "prompt" = some (Json.str s) ∨
      (s = "" ∧ getField fs₂ "prompt" = none)) :
    run (Except.ok (Json.obj fs₁)) = run (Except.ok (Json.obj fs₂)) ∧
    (s = "" → run (Except.ok (Json.obj fs₁)) = Except.ok allowedEffect) := by
  have ext : ∀ fs : List (String × Json),
      (getField fs "prompt" = some (Json.str s) ∨
        (s = "" ∧ getField fs "prompt" = none)) →
      extractPrompt (Except.ok (Json.obj fs)) = Json.str s := by
    intro fs hf
    rcases hf with hf | ⟨hz, hf⟩
    · simp [extractPrompt, hf]
    · rw [hz]
      simp [extractPrompt, hf]
  have e₁ := ext fs₁ h₁
  have e₂ := ext fs₂ h₂
  constructor
  · show (decideVerdict (extractPrompt (Except.ok (Json.obj fs₁)))).map effectOf =
      (decideVerdict (extractPrompt (Except.ok (Json.obj fs₂)))).map effectOf
    rw [e₁, e₂]
  · intro hz
    refine run_str_allowed _ s e₁ (Or.inl ?_)
    rw [hz]
    rfl

/-- Witness for C9: the explicit empty prompt and an object without the
prompt key, with an unrelated extra field, agree on the Allowed outcome. -/
theorem same_prompt_same_outcome_witness :
    run (Except.ok (Json.obj [("prompt", Json.str "")])) =
      run (Except.ok (Json.obj [("note", Json.num 1)])) ∧
    ("" = "" → run (Except.ok (Json.obj [("prompt", Json.str "")])) =
      Except.ok allowedEffect) :=
  same_prompt_same_outcome [("prompt", Json.str "")] [("note", Json.num 1)] ""
    (Or.inl rfl) (Or.inr ⟨rfl, rfl⟩)

/-- Helper: the big-step relation agrees with the functional semantics, so
it relates every input to exactly the outcome the program computes. -/
theorem step_of_run (i : Except Unit Json) : Step i (run i) := by
  cases hp : pyLen (extractPrompt i) with
  | error u =>
    have hr : run i = Except.error () := by
      simp [run, decideVerdict, hp, Except.map]
    rw [hr]
    cases u
    exact Step.lenCrash i hp
  | ok n =>
    cases n with
    | zero =>
      have hr : run i = Except.ok allowedEffect := by
        simp [run, decideVerdict, hp, Except.map, effectOf]
      rw [hr]
      exact Step.emptyAllow i hp
    | succ m =>
      cases hq : pyLower (extractPrompt i) with
      | error u =>
        have hr : run i = Except.error () := by
          simp [run, decideVerdict, hp, hq, Except.map]
        rw [hr]
        cases u
        exact Step.lowerCrash i m hp hq
      | ok low =>
        cases hb : occursIn marker.toList low with
        | false =>
          have hb2 : occursIn marker.data low = false := hb
          have hr : run i = Except.ok blockedEffect := by
            simp [run, decideVerdict, hp, hq, hb2, Except.map, effectOf]
          rw [hr]
          exact Step.blockStep i m low hp hq hb
        | true =>
          have hb2 : occursIn marker.data low = true := hb
          have hr : run i = Except.ok allowedEffect := by
            simp [run, decideVerdict, hp, hq, hb2, Except.map, effectOf]
          rw [hr]
          exact Step.markedAllow i m low hp hq hb

/-- C10: the checker is deterministic - the big-step relation assigns at
most one outcome (verdict, texts, exit status) to any given input, so two
invocations on the same input agree completely. -/
theorem checker_deterministic (i : Except Unit Json)
    (o₁ o₂ : Except Unit Effect) (h₁ : Step i o₁) (h₂ : Step i o₂) :
    o₁ = o₂ := by
  cases h₁ <;> cases h₂ <;> simp_all

/-- Witness for C10 at the parse-failure input, whose two derivations give
the same outcome. -/
theorem checker_deterministic_witness :
    (Except.ok allowedEffect : Except Unit Effect) = Except.ok allowedEffect :=
  checker_deterministic (Except.error ()) (Except.ok allowedEffect)
    (Except.ok allowedEffect) (Step.emptyAllow (Except.error ()) rfl)
    (Step.emptyAllow (Except.error ()) rfl)
